import Mathlib

/-!
Shallow embedding of the GLB mesh-validation pipeline
(src/src/glb_checker/glb_validator.py and src/src/main.py).

Modelling conventions:
- Python floats are embedded as exact rationals (ℚ); the threshold
  comparisons the claims are about involve small integer counts, where
  exact rational and IEEE double comparison agree.
- Results of external library calls (trimesh.load, CollisionManager
  construction, in_collision_single, area_faces, is_winding_consistent)
  are inputs of the embedded functions: the Python code consumes their
  results, and the logic under verification is everything the repository
  itself does with them.
- Python exceptions are embedded with Except: an uncaught exception is an
  Except.error result, a caught one is matched where the handler sits.
- Mutation of self.errors is embedded by explicit list accumulation, in
  the order Python appends.
-/

/-- Mesh data as the validator sees it: the vertex rows and face index
rows of the loaded trimesh object, together with the library-derived
quantities the checks consume (per-face areas, winding consistency). -/
structure Mesh where
  vertices : List (List ℚ)
  faces : List (List Nat)
  area_faces : List ℚ
  is_winding_consistent : Bool
deriving DecidableEq

/-- GLBMeshValidator.MAX_FACES. -/
def MAX_FACES : Nat := 64000

/-- GLBMeshValidator.SEVERITY_THRESHOLD (0.7 embedded exactly). -/
def SEVERITY_THRESHOLD : ℚ := 7 / 10

/-- GLBMeshValidator.OFFSET_SCALE_FACTOR (5e-5 embedded exactly). -/
def OFFSET_SCALE_FACTOR : ℚ := 5 / 100000

/-- Epsilon of check_degenerate_faces (1e-10 embedded exactly). -/
def DEGENERATE_EPS : ℚ := 1 / 10000000000

/-- Message of check_face_count. -/
def msgTooManyFaces (n : Nat) : String := s!"Too many faces ({n})."

/-- Message of the multiple-objects branch of load_mesh. -/
def msgMultipleObjects (n : Nat) : String :=
  s!"Scene contains multiple objects: {n} objects found."

/-- Message of the blanket except branch of load_mesh. -/
def msgErrorLoading (e : String) : String := s!"Error loading mesh: {e}"

/-- Message of the invalid-type branch of load_mesh. -/
def msgInvalidType (t : String) : String := s!"Invalid mesh type: {t}"

/-- Per-face skip diagnostic of detect_severe_self_intersections. -/
def msgSkippingFace (i : Nat) (shape : String) : String :=
  s!"Skipping face {i} due to incorrect shape: {shape}"

/-- Per-face query-error diagnostic of detect_severe_self_intersections. -/
def msgFaceError (i : Nat) (e : String) : String :=
  s!"Error processing face {i}: {e}"

/-- Blanket failure message of detect_severe_self_intersections. -/
def msgDetectError (e : String) : String :=
  s!"Error detecting self-intersections: {e}"

/-- Failure message recorded when the severity threshold is exceeded. -/
def msgSevere (n : Nat) : String :=
  s!"Severe self-intersections detected: {n} faces."

/-- Text of the numpy IndexError raised by mesh.vertices[face] when a
face index is out of range. -/
def msgIndexOutOfRange (j n : Nat) : String :=
  s!"index {j} is out of bounds for axis 0 with size {n}"

/-- Text of the Python AttributeError raised when a mesh check touches
the faces attribute of a non-Trimesh object (for example a Path3D that
load_mesh handed back). -/
def msgNoFacesAttr (t : String) : String :=
  s!"AttributeError: {t} object has no attribute faces"

/-- GLBMeshValidator.check_face_count: boolean result plus the reasons it
appends to self.errors. -/
def check_face_count (m : Mesh) : Bool × List String :=
  if m.faces.length > MAX_FACES then
    (false, [msgTooManyFaces m.faces.length])
  else (true, [])

/-- GLBMeshValidator.check_empty_mesh. -/
def check_empty_mesh (m : Mesh) : Bool × List String :=
  if m.faces.length = 0 then (false, ["Mesh has no faces."])
  else (true, [])

/-- GLBMeshValidator.check_degenerate_faces: np.any(areas < 1e-10). -/
def check_degenerate_faces (m : Mesh) : Bool × List String :=
  if m.area_faces.any (fun a => decide (a < DEGENERATE_EPS)) then
    (false, ["Mesh has degenerate faces."])
  else (true, [])

/-- GLBMeshValidator.check_normals_consistency. -/
def check_normals_consistency (m : Mesh) : Bool × List String :=
  if m.is_winding_consistent then (true, [])
  else (false, ["Mesh has inconsistent face normal orientations."])

/-- The numpy fancy-indexing step face_vertices = np.array(mesh.vertices[face]),
assuming all indices are in range (the out-of-range case is handled in
faceStep, where numpy raises IndexError). -/
def faceVertices (verts : List (List ℚ)) (f : List Nat) : List (List ℚ) :=
  f.map (fun j => verts.getD j [])

/-- The shape == (3, 3) test on face_vertices: 3 rows of 3 coordinates. -/
def shapeOK (fv : List (List ℚ)) : Bool :=
  decide (fv.length = 3) && fv.all (fun v => decide (v.length = 3))

/-- Rendering of face_vertices.shape for the skip diagnostic. -/
def shapeStr (fv : List (List ℚ)) : String :=
  let k := fv.length
  let d := (fv.headD []).length
  s!"({k}, {d})"

/-- np.mean(face_vertices, axis=0): componentwise mean of the rows. -/
def centroid (fv : List (List ℚ)) : List ℚ :=
  (List.range (fv.headD []).length).map
    (fun c => (fv.map (fun v => v.getD c 0)).sum / (fv.length : ℚ))

/-- perturbed_face = face_vertices + np.mean(face_vertices, axis=0) * 5e-5,
the probe triangle submitted to the collision query. -/
def perturbFace (fv : List (List ℚ)) : List (List ℚ) :=
  let offset := (centroid fv).map (fun x => x * OFFSET_SCALE_FACTOR)
  fv.map (fun v => List.zipWith (fun a b => a + b) v offset)

/-- Outcome of one iteration of the face loop of
detect_severe_self_intersections: an IndexError raised by the vertex
lookup (escalates to the outer handler), a skip with its diagnostic, or
a probe whose collision query returned Except.ok hit or raised. -/
inductive FaceOutcome where
  | ixErr (msg : String)
  | skipped (diag : String)
  | probed (res : Except String Bool)

/-- One iteration of the face loop, for face f at enumeration index i.
The collision query (everything inside the inner try, including the
probe-Trimesh construction) is the oracle collide, fed the face index
and the perturbed triangle. -/
def faceStep (verts : List (List ℚ))
    (collide : Nat → List (List ℚ) → Except String Bool)
    (i : Nat) (f : List Nat) : FaceOutcome :=
  if f.all (fun j => decide (j < verts.length)) then
    let fv := faceVertices verts f
    if shapeOK fv then FaceOutcome.probed (collide i (perturbFace fv))
    else FaceOutcome.skipped (msgSkippingFace i (shapeStr fv))
  else
    FaceOutcome.ixErr
      (msgIndexOutOfRange ((f.find? (fun j => decide (verts.length ≤ j))).getD 0)
        verts.length)

/-- The face loop: returns the number of faces recorded in
severe_intersections, the diagnostics appended to self.errors in order,
and the pending exception if an iteration raised outside the inner try
(which stops the loop and escalates). -/
def detectLoop (verts : List (List ℚ))
    (collide : Nat → List (List ℚ) → Except String Bool) :
    Nat → List (List Nat) → Nat × List String × Option String
  | _, [] => (0, [], none)
  | i, f :: fs =>
    match faceStep verts collide i f with
    | .ixErr e => (0, [], some e)
    | .skipped d =>
      let r := detectLoop verts collide (i + 1) fs
      (r.1, d :: r.2.1, r.2.2)
    | .probed (.ok true) =>
      let r := detectLoop verts collide (i + 1) fs
      (r.1 + 1, r.2.1, r.2.2)
    | .probed (.ok false) => detectLoop verts collide (i + 1) fs
    | .probed (.error e) =>
      let r := detectLoop verts collide (i + 1) fs
      (r.1, msgFaceError i e :: r.2.1, r.2.2)

/-- Number of intersecting faces the loop accumulates (length of
severe_intersections), as a standalone count. -/
def severeCountAux (verts : List (List ℚ))
    (collide : Nat → List (List ℚ) → Except String Bool) :
    Nat → List (List Nat) → Nat
  | _, [] => 0
  | i, f :: fs =>
    (match faceStep verts collide i f with
      | .probed (.ok true) => 1
      | _ => 0) + severeCountAux verts collide (i + 1) fs

/-- Diagnostics the loop appends (skip and per-face error messages), as a
standalone list. -/
def diagsAux (verts : List (List ℚ))
    (collide : Nat → List (List ℚ) → Except String Bool) :
    Nat → List (List Nat) → List String
  | _, [] => []
  | i, f :: fs =>
    (match faceStep verts collide i f with
      | .skipped d => [d]
      | .probed (.error e) => [msgFaceError i e]
      | _ => []) ++ diagsAux verts collide (i + 1) fs

/-- Intersecting-face count of a whole mesh scan. -/
def severeCount (m : Mesh)
    (collide : Nat → List (List ℚ) → Except String Bool) : Nat :=
  severeCountAux m.vertices collide 0 m.faces

/-- Diagnostics of a whole mesh scan. -/
def diagsOf (m : Mesh)
    (collide : Nat → List (List ℚ) → Except String Bool) : List String :=
  diagsAux m.vertices collide 0 m.faces

/-- GLBMeshValidator.detect_severe_self_intersections. The bvh argument
is the outcome of CollisionManager construction plus add_object; collide
is the per-face collision query. The final ratio test divides by
len(mesh.faces); with zero faces Python raises ZeroDivisionError, caught
by the same blanket except as a bvh failure. -/
def detect_severe_self_intersections (m : Mesh) (bvh : Except String Unit)
    (collide : Nat → List (List ℚ) → Except String Bool) : Bool × List String :=
  match bvh with
  | .error e => (false, [msgDetectError e])
  | .ok _ =>
    match detectLoop m.vertices collide 0 m.faces with
    | (_, diags, some e) => (false, diags ++ [msgDetectError e])
    | (count, diags, none) =>
      if m.faces.length = 0 then
        (false, diags ++ [msgDetectError "division by zero"])
      else if (count : ℚ) / (m.faces.length : ℚ) > SEVERITY_THRESHOLD then
        (false, diags ++ [msgSevere count])
      else (true, diags)

/-- One geometry inside a loaded trimesh.Scene: either a Trimesh or some
other object (Path3D, PointCloud, ...), which scene extraction hands back
unchecked. -/
inductive Geometry where
  | tri (m : Mesh)
  | nonTri (typeName : String)
deriving DecidableEq

/-- What trimesh.load produced: a Scene, a Path3D (with the outcome of
its to_mesh() call: raised, returned a falsy value, or converted), a
Trimesh, or an object of any other type. -/
inductive LoadedObject where
  | scene (geometry : List Geometry)
  | path3d (toMesh : Except String (Option Mesh))
  | trimeshObj (m : Mesh)
  | other (typeName : String)

/-- What load_mesh returns: None, a Trimesh, or a truthy non-Trimesh
object (the original Path3D after a failed conversion, or a non-Trimesh
scene geometry). -/
inductive LoadResult where
  | noMesh
  | mesh (m : Mesh)
  | nonMesh (typeName : String)
deriving DecidableEq

/-- GLBMeshValidator.load_mesh. The loaded argument is the outcome of
trimesh.load (Except.error embeds a raised parse exception, caught by
the blanket except). Returns the result together with the messages
appended to self.errors, in order. -/
def load_mesh (loaded : Except String LoadedObject) : LoadResult × List String :=
  match loaded with
  | .error e => (.noMesh, [msgErrorLoading e])
  | .ok (.scene geoms) =>
    if geoms.length > 1 then
      (.noMesh, [msgMultipleObjects geoms.length])
    else
      match geoms with
      | [] => (.noMesh, ["Scene contains no meshes."])
      | .tri m :: _ => (.mesh m, [])
      | .nonTri t :: _ => (.nonMesh t, [])
  | .ok (.path3d conv) =>
    match conv with
    | .error e => (.noMesh, ["Detected Path3D object.", msgErrorLoading e])
    | .ok (some m) =>
      (.mesh m, ["Detected Path3D object.", "Converted Path3D to Trimesh."])
    | .ok none =>
      (.nonMesh "Path3D",
        ["Detected Path3D object.", "Failed to convert Path3D to mesh."])
  | .ok (.trimeshObj m) => (.mesh m, [])
  | .ok (.other t) => (.noMesh, [msgInvalidType t])

/-- GLBMeshValidator.validate. Returns Except.ok (passed, errors) for a
normal return; when load_mesh hands back a truthy non-Trimesh object,
the first check evaluates len(mesh.faces) and the resulting
AttributeError propagates uncaught, embedded as Except.error. -/
def validate (loaded : Except String LoadedObject) (bvh : Except String Unit)
    (collide : Nat → List (List ℚ) → Except String Bool) :
    Except String (Bool × List String) :=
  match load_mesh loaded with
  | (.noMesh, errs) => .ok (false, errs)
  | (.nonMesh t, _) => .error (msgNoFacesAttr t)
  | (.mesh m, errs) =>
    let c1 := check_face_count m
    let c2 := check_empty_mesh m
    let c3 := check_degenerate_faces m
    let c4 := detect_severe_self_intersections m bvh collide
    let c5 := check_normals_consistency m
    .ok (c1.1 && c2.1 && c3.1 && c4.1 && c5.1,
      errs ++ c1.2 ++ c2.2 ++ c3.2 ++ c4.2 ++ c5.2)

/-- Final state of one asset task of src/src/main.py: exported, a failure
returned as a tuple with its reasons, or an exception that escaped the
task function. -/
inductive TaskOutcome where
  | exported
  | failed (reasons : List String)
  | crashed (msg : String)
deriving DecidableEq

/-- Per-asset slice of the output filesystem: whether the asset output
directory exists and whether the downloaded GLB file inside it exists.
The directories are partitioned per asset, so one asset task only ever
touches its own slice. -/
structure AssetFs where
  dirExists : Bool
  fileExists : Bool
deriving DecidableEq

/-- download_glb_file: mkdir creates the directory, wget fetches the
file; on a nonzero wget status shutil.rmtree removes the whole directory.
Returns the success flag and the resulting filesystem slice. -/
def download_glb_file (wgetOk : Bool) : Bool × AssetFs :=
  if wgetOk then (true, ⟨true, true⟩)
  else (false, ⟨false, false⟩)

/-- validate_and_convert_glb. valRes is the outcome of
GLBMeshValidator.validate (Except.error embeds an exception escaping the
validator); pbrSave covers extract_pbr_textures plus save_json, which run
outside any try and crash the task if they raise; exportRes is the
trimesh.load + export step inside the try. shutil.rmtree without
ignore_errors raises if the directory is already gone. -/
def validate_and_convert_glb (fs : AssetFs)
    (valRes : Except String (Bool × List String))
    (pbrSave : Except String Unit) (exportRes : Except String Unit) :
    TaskOutcome × AssetFs :=
  if fs.fileExists then
    match valRes with
    | .error e => (.crashed e, fs)
    | .ok (true, _) =>
      match pbrSave with
      | .error e => (.crashed e, fs)
      | .ok _ =>
        match exportRes with
        | .ok _ => (.exported, fs)
        | .error e =>
          if fs.dirExists then (.failed [e], ⟨false, false⟩)
          else (.crashed "FileNotFoundError", fs)
    | .ok (false, reasons) =>
      if fs.dirExists then (.failed reasons, ⟨false, false⟩)
      else (.crashed "FileNotFoundError", fs)
  else (.failed ["File does not exist"], fs)

/-- One asset task of the pipeline: acquisition, then (only on success)
validation and export, as main() wires download_glb_file into
validate_and_convert_glb. -/
def processAsset (wgetOk : Bool)
    (valRes : Except String (Bool × List String))
    (pbrSave : Except String Unit) (exportRes : Except String Unit) :
    TaskOutcome × AssetFs :=
  match download_glb_file wgetOk with
  | (true, fs) => validate_and_convert_glb fs valRes pbrSave exportRes
  | (false, fs) => (.failed ["AcquisitionFailed"], fs)

/-- Concrete fixture: a well-formed single-triangle mesh that passes
every check (with a collision oracle that reports no hits). -/
def goodMesh : Mesh :=
  { vertices := [[0, 0, 0], [1, 0, 0], [0, 1, 0]]
    faces := [[0, 1, 2]]
    area_faces := [1 / 2]
    is_winding_consistent := true }

/-- Concrete fixture: a mesh with zero faces. -/
def emptyMesh : Mesh :=
  { vertices := [], faces := [], area_faces := [], is_winding_consistent := true }

/-- Concrete fixture: one face whose three vertex positions coincide;
its vertex data still has shape (3, 3). -/
def coincidentMesh : Mesh :=
  { vertices := [[1, 1, 1], [1, 1, 1], [1, 1, 1]]
    faces := [[0, 1, 2]]
    area_faces := [0]
    is_winding_consistent := true }

/-- Concrete fixture: two well-formed faces over the same triangle. -/
def twoFaceMesh : Mesh :=
  { vertices := [[0, 0, 0], [1, 0, 0], [0, 1, 0]]
    faces := [[0, 1, 2], [0, 1, 2]]
    area_faces := [1 / 2, 1 / 2]
    is_winding_consistent := true }

/-- Concrete fixture: a face referencing vertex index 5 of a 2-vertex
mesh, so the vertex lookup raises IndexError. -/
def badIndexMesh : Mesh :=
  { vertices := [[0, 0, 0], [1, 0, 0]]
    faces := [[0, 1, 5]]
    area_faces := [1 / 2]
    is_winding_consistent := true }

/-- Concrete fixture: ten identical well-formed faces, used to exercise
the severity threshold at the exact 0.7 boundary. -/
def tenFaceMesh : Mesh :=
  { vertices := [[0, 0, 0], [1, 0, 0], [0, 1, 0]]
    faces := List.replicate 10 [0, 1, 2]
    area_faces := List.replicate 10 (1 / 2)
    is_winding_consistent := true }

/-- Concrete fixture: 64001 faces (face-count bound exceeded by one). -/
def bigMesh : Mesh :=
  { vertices := [[0, 0, 0], [1, 0, 0], [0, 1, 0]]
    faces := List.replicate 64001 [0, 1, 2]
    area_faces := [1 / 2]
    is_winding_consistent := true }

/-- Concrete fixture: exactly 64000 faces (at the face-count bound). -/
def boundaryMesh : Mesh :=
  { vertices := [[0, 0, 0], [1, 0, 0], [0, 1, 0]]
    faces := List.replicate 64000 [0, 1, 2]
    area_faces := [1 / 2]
    is_winding_consistent := true }

/-- Collision oracle reporting no collision for every probe. -/
def collideNone : Nat → List (List ℚ) → Except String Bool :=
  fun _ _ => .ok false

/-- Collision oracle reporting a collision for every probe. -/
def collideAll : Nat → List (List ℚ) → Except String Bool :=
  fun _ _ => .ok true

/-- Collision oracle whose query raises on every probe. -/
def collideBoom : Nat → List (List ℚ) → Except String Bool :=
  fun _ _ => .error "boom"

/-- Collision oracle reporting a collision exactly for the first seven
face indices. -/
def collideSeven : Nat → List (List ℚ) → Except String Bool :=
  fun i _ => .ok (decide (i < 7))

/-- Every branch of a check that returns False appends a reason, so an
empty reason output forces a True result (check_face_count). -/
theorem check_face_count_nil_true (m : Mesh) :
    (check_face_count m).2 = [] → (check_face_count m).1 = true := by
  unfold check_face_count; split <;> simp

/-- Empty reason output forces a True result (check_empty_mesh). -/
theorem check_empty_mesh_nil_true (m : Mesh) :
    (check_empty_mesh m).2 = [] → (check_empty_mesh m).1 = true := by
  unfold check_empty_mesh; split <;> simp

/-- Empty reason output forces a True result (check_degenerate_faces). -/
theorem check_degenerate_faces_nil_true (m : Mesh) :
    (check_degenerate_faces m).2 = [] → (check_degenerate_faces m).1 = true := by
  unfold check_degenerate_faces; split <;> simp

/-- Empty reason output forces a True result (check_normals_consistency). -/
theorem check_normals_consistency_nil_true (m : Mesh) :
    (check_normals_consistency m).2 = [] → (check_normals_consistency m).1 = true := by
  unfold check_normals_consistency; split <;> simp

/-- Empty reason output forces a True result
(detect_severe_self_intersections): every False branch appends. -/
theorem detect_nil_true (m : Mesh) (bvh : Except String Unit)
    (collide : Nat → List (List ℚ) → Except String Bool) :
    (detect_severe_self_intersections m bvh collide).2 = [] →
    (detect_severe_self_intersections m bvh collide).1 = true := by
  unfold detect_severe_self_intersections
  cases bvh with
  | error e => simp
  | ok u =>
    rcases hL : detectLoop m.vertices collide 0 m.faces with ⟨c, diags, ex⟩
    cases ex with
    | some e => simp
    | none =>
      dsimp only
      split
      · simp
      · split <;> simp

/-- Every load_mesh branch that returns None has appended an error. -/
theorem load_mesh_noMesh_nonempty (loaded : Except String LoadedObject)
    (h : (load_mesh loaded).1 = LoadResult.noMesh) :
    (load_mesh loaded).2 ≠ [] := by
  cases loaded with
  | error e => simp [load_mesh]
  | ok obj =>
    cases obj with
    | scene geoms =>
      match geoms with
      | [] => simp [load_mesh]
      | [Geometry.tri m] => simp [load_mesh] at h
      | [Geometry.nonTri t] => simp [load_mesh] at h
      | g1 :: g2 :: rest =>
        have hlen : (g1 :: g2 :: rest).length > 1 := by
          simp [List.length_cons]
        simp [load_mesh, hlen]
    | path3d conv =>
      match conv with
      | .error e => simp [load_mesh]
      | .ok (some m) => simp [load_mesh] at h
      | .ok none => simp [load_mesh] at h
    | trimeshObj m => simp [load_mesh] at h
    | other t => simp [load_mesh]

/-- When every face index of every face is in range, no loop iteration
raises: the scan walks all faces, accumulating the count and the
diagnostics, and no exception is pending at the end. -/
theorem detectLoop_inRange (verts : List (List ℚ))
    (collide : Nat → List (List ℚ) → Except String Bool)
    (fs : List (List Nat)) (i : Nat)
    (h : ∀ f ∈ fs, f.all (fun j => decide (j < verts.length)) = true) :
    detectLoop verts collide i fs =
      (severeCountAux verts collide i fs, diagsAux verts collide i fs, none) := by
  induction fs generalizing i with
  | nil => rfl
  | cons f fs ih =>
    have hf : f.all (fun j => decide (j < verts.length)) = true :=
      h f (List.mem_cons_self f fs)
    have hrest : ∀ g ∈ fs, g.all (fun j => decide (j < verts.length)) = true :=
      fun g hg => h g (List.mem_cons_of_mem f hg)
    have hih := ih (i + 1) hrest
    simp only [detectLoop, severeCountAux, diagsAux]
    unfold faceStep
    rw [if_pos hf]
    by_cases hs : shapeOK (faceVertices verts f) = true
    · rw [if_pos hs]
      rcases hcol : collide i (perturbFace (faceVertices verts f)) with e | b
      · simp [hih]
      · cases b <;> simp [hih, Nat.add_comm]
    · rw [if_neg hs]
      simp [hih]

/-- Claim C1, counterexample: validate() can return passed = True together
with a non-empty reason list — a Path3D asset whose conversion succeeds
and whose converted mesh passes every check keeps the two informational
messages in the list, so passed is not equivalent to the list being
empty. -/
theorem C1_counterexample :
    validate (.ok (.path3d (.ok (some goodMesh)))) (.ok ()) collideNone =
      .ok (true, ["Detected Path3D object.", "Converted Path3D to Trimesh."]) ∧
    (["Detected Path3D object.", "Converted Path3D to Trimesh."] : List String) ≠
      [] := by
  have h1 : check_face_count goodMesh = (true, []) := by
    norm_num [check_face_count, goodMesh, MAX_FACES]
  have h2 : check_empty_mesh goodMesh = (true, []) := by
    norm_num [check_empty_mesh, goodMesh]
  have h3 : check_degenerate_faces goodMesh = (true, []) := by
    norm_num [check_degenerate_faces, goodMesh, DEGENERATE_EPS]
  have hL : detectLoop [[0, 0, 0], [1, 0, 0], [0, 1, 0]] collideNone 0 [[0, 1, 2]] =
      (0, [], none) := rfl
  have h4 : detect_severe_self_intersections goodMesh (.ok ()) collideNone =
      (true, []) := by
    norm_num [detect_severe_self_intersections, goodMesh, hL, SEVERITY_THRESHOLD]
  have h5 : check_normals_consistency goodMesh = (true, []) := rfl
  refine ⟨?_, by simp⟩
  simp [validate, load_mesh, h1, h2, h3, h4, h5]

/-- Claim C1, amended: for every input on which validate() returns
normally, an empty reason list implies passed = True, and passed = False
implies a non-empty reason list; the converse fails because passing runs
may carry informational diagnostics (see the counterexample). -/
theorem C1_amended (loaded : Except String LoadedObject) (bvh : Except String Unit)
    (collide : Nat → List (List ℚ) → Except String Bool) (p : Bool) (rs : List String)
    (h : validate loaded bvh collide = Except.ok (p, rs)) :
    (rs = [] → p = true) ∧ (p = false → rs ≠ []) := by
  have main : rs = [] → p = true := by
    intro hrs
    subst hrs
    rcases hl : load_mesh loaded with ⟨res, errs⟩
    simp only [validate, hl] at h
    cases res with
    | noMesh =>
      have hne : errs ≠ [] := by
        have h1 : (load_mesh loaded).1 = LoadResult.noMesh := by rw [hl]
        have h2 := load_mesh_noMesh_nonempty loaded h1
        rwa [hl] at h2
      rw [Except.ok.injEq, Prod.mk.injEq] at h
      exact absurd h.2 hne
    | nonMesh t => simp at h
    | mesh m =>
      rw [Except.ok.injEq, Prod.mk.injEq] at h
      obtain ⟨hp, he⟩ := h
      simp only [List.append_eq_nil] at he
      obtain ⟨⟨⟨⟨⟨_, h1⟩, h2⟩, h3⟩, h4⟩, h5⟩ := he
      rw [← hp, check_face_count_nil_true m h1, check_empty_mesh_nil_true m h2,
        check_degenerate_faces_nil_true m h3, detect_nil_true m bvh collide h4,
        check_normals_consistency_nil_true m h5]
      rfl
  refine ⟨main, fun hp hrs => ?_⟩
  have ht := main hrs
  rw [hp] at ht
  exact Bool.false_ne_true ht

/-- Claim C1, amended, witness at a concrete input. -/
theorem C1_amended_witness :
    (([msgInvalidType "int"] : List String) = [] → false = true) ∧
    (false = false → ([msgInvalidType "int"] : List String) ≠ []) :=
  C1_amended (.ok (.other "int")) (.ok ()) collideNone false [msgInvalidType "int"] rfl

/-- Claim C2, counterexample: one single check
(detect_severe_self_intersections) can append two reasons — here two
per-face query diagnostics — while returning True, so it is not the case
that each check appends zero or one reason. -/
theorem C2_counterexample :
    detect_severe_self_intersections twoFaceMesh (.ok ()) collideBoom =
      (true, [msgFaceError 0 "boom", msgFaceError 1 "boom"]) ∧
    (detect_severe_self_intersections twoFaceMesh (.ok ()) collideBoom).2.length = 2 := by
  have hL : detectLoop [[0, 0, 0], [1, 0, 0], [0, 1, 0]] collideBoom 0
        [[0, 1, 2], [0, 1, 2]] =
      (0, [msgFaceError 0 "boom", msgFaceError 1 "boom"], none) := rfl
  have hmain : detect_severe_self_intersections twoFaceMesh (.ok ()) collideBoom =
      (true, [msgFaceError 0 "boom", msgFaceError 1 "boom"]) := by
    norm_num [detect_severe_self_intersections, twoFaceMesh, hL, SEVERITY_THRESHOLD]
  exact ⟨hmain, by simp [hmain]⟩

/-- Claim C2, amended: for every loaded mesh all five checks execute in
the fixed order FaceCount, EmptyMesh, DegenerateFaces, SelfIntersection,
WindingConsistency with no short-circuit, passed equals the conjunction
of the five booleans and the reason list is the concatenation of the five
reason outputs in that order; FaceCount, EmptyMesh, DegenerateFaces and
WindingConsistency each append zero or one reason, but SelfIntersection
may append several (per-face diagnostics besides its failure reason). -/
theorem C2_amended (m : Mesh) (bvh : Except String Unit)
    (collide : Nat → List (List ℚ) → Except String Bool) :
    validate (.ok (.trimeshObj m)) bvh collide =
      .ok ((check_face_count m).1 && (check_empty_mesh m).1 &&
            (check_degenerate_faces m).1 &&
            (detect_severe_self_intersections m bvh collide).1 &&
            (check_normals_consistency m).1,
        (check_face_count m).2 ++ (check_empty_mesh m).2 ++
          (check_degenerate_faces m).2 ++
          (detect_severe_self_intersections m bvh collide).2 ++
          (check_normals_consistency m).2) ∧
    (check_face_count m).2.length ≤ 1 ∧ (check_empty_mesh m).2.length ≤ 1 ∧
    (check_degenerate_faces m).2.length ≤ 1 ∧
    (check_normals_consistency m).2.length ≤ 1 := by
  refine ⟨?_, ?_, ?_, ?_, ?_⟩
  · simp [validate, load_mesh]
  · unfold check_face_count; split <;> simp
  · unfold check_empty_mesh; split <;> simp
  · unfold check_degenerate_faces; split <;> simp
  · unfold check_normals_consistency; split <;> simp

/-- Claim C3, counterexample: a zero-face mesh satisfies the claim's
premises (index built, no per-face query ever errs — vacuously), yet the
check fails via the blanket error reason even though its intersecting
ratio is not greater than 0.7, so the stated equivalence is false. -/
theorem C3_counterexample :
    detect_severe_self_intersections emptyMesh (.ok ()) collideNone =
      (false, [msgDetectError "division by zero"]) ∧
    ¬ ((severeCount emptyMesh collideNone : ℚ) / (emptyMesh.faces.length : ℚ) >
        SEVERITY_THRESHOLD) := by
  constructor
  · rfl
  · norm_num [severeCount, severeCountAux, emptyMesh, SEVERITY_THRESHOLD]

/-- Claim C3, amended: for every mesh with at least one face whose face
indices are all in range, when the spatial index builds and every
per-face collision query completes without error, the check fails if and
only if intersecting count / total count is strictly greater than the
0.7 threshold (so a ratio of exactly 0.7 passes), and on failure the
reason recording the intersecting count is appended. -/
theorem C3_amended (m : Mesh) (collide : Nat → List (List ℚ) → Except String Bool)
    (hin : ∀ f ∈ m.faces, f.all (fun j => decide (j < m.vertices.length)) = true)
    (hne : m.faces ≠ [])
    (_hok : ∀ i fv, ∃ b, collide i fv = Except.ok b) :
    ((detect_severe_self_intersections m (.ok ()) collide).1 = false ↔
      (severeCount m collide : ℚ) / (m.faces.length : ℚ) > SEVERITY_THRESHOLD) ∧
    ((severeCount m collide : ℚ) / (m.faces.length : ℚ) > SEVERITY_THRESHOLD →
      msgSevere (severeCount m collide) ∈
        (detect_severe_self_intersections m (.ok ()) collide).2) := by
  have hd := detectLoop_inRange m.vertices collide m.faces 0 hin
  have hlen : ¬ (m.faces.length = 0) := fun h0 => hne (List.length_eq_zero.mp h0)
  unfold detect_severe_self_intersections
  rw [hd]
  dsimp only
  rw [if_neg hlen]
  by_cases hr : (severeCountAux m.vertices collide 0 m.faces : ℚ) /
      (m.faces.length : ℚ) > SEVERITY_THRESHOLD
  · rw [if_pos hr]
    constructor
    · simpa [severeCount] using hr
    · intro _
      simp [severeCount]
  · rw [if_neg hr]
    constructor
    · simpa [severeCount] using hr
    · intro hcon
      exact absurd hcon (by simpa [severeCount] using hr)

/-- Claim C3, amended, witness: ten faces of which exactly seven probe as
intersecting — the ratio is exactly 0.7, and the instantiated equivalence
certifies that the boundary case passes. -/
theorem C3_amended_witness :
    ((detect_severe_self_intersections tenFaceMesh (.ok ()) collideSeven).1 = false ↔
      (severeCount tenFaceMesh collideSeven : ℚ) / (tenFaceMesh.faces.length : ℚ) >
        SEVERITY_THRESHOLD) ∧
    ((severeCount tenFaceMesh collideSeven : ℚ) / (tenFaceMesh.faces.length : ℚ) >
        SEVERITY_THRESHOLD →
      msgSevere (severeCount tenFaceMesh collideSeven) ∈
        (detect_severe_self_intersections tenFaceMesh (.ok ()) collideSeven).2) :=
  C3_amended tenFaceMesh collideSeven (by decide) (by decide)
    (fun i fv => ⟨decide (i < 7), rfl⟩)

/-- Claim C5, counterexample: with the spatial index successfully built
(the bvh argument is Except.ok), a single face whose vertex lookup raises
IndexError still escalates to a whole-check failure through the blanket
handler — so index-construction failure is not the only condition that
escalates. -/
theorem C5_counterexample :
    detect_severe_self_intersections badIndexMesh (.ok ()) collideNone =
      (false, [msgDetectError (msgIndexOutOfRange 5 2)]) := rfl

/-- Claim C5, amended: an error raised by a single face's collision query
is recorded as a per-face diagnostic and the scan continues over all
remaining faces (the loop finishes with no pending exception and the
result is determined by the accumulated count and diagnostics); but the
whole check fails not only on index-construction failure — an
out-of-range face index or a zero-face ratio computation also escalate
through the blanket handler (see the counterexample and claim C10). -/
theorem C5_amended (m : Mesh) (collide : Nat → List (List ℚ) → Except String Bool)
    (hin : ∀ f ∈ m.faces, f.all (fun j => decide (j < m.vertices.length)) = true)
    (hne : m.faces ≠ []) :
    (detectLoop m.vertices collide 0 m.faces).2.2 = none ∧
    detect_severe_self_intersections m (.ok ()) collide =
      (if (severeCount m collide : ℚ) / (m.faces.length : ℚ) > SEVERITY_THRESHOLD
        then false else true,
       diagsOf m collide ++
         (if (severeCount m collide : ℚ) / (m.faces.length : ℚ) > SEVERITY_THRESHOLD
           then [msgSevere (severeCount m collide)] else [])) := by
  have hd := detectLoop_inRange m.vertices collide m.faces 0 hin
  have hlen : ¬ (m.faces.length = 0) := fun h0 => hne (List.length_eq_zero.mp h0)
  constructor
  · rw [hd]
  · unfold detect_severe_self_intersections
    rw [hd]
    dsimp only
    rw [if_neg hlen]
    by_cases hr : (severeCountAux m.vertices collide 0 m.faces : ℚ) /
        (m.faces.length : ℚ) > SEVERITY_THRESHOLD
    · rw [if_pos hr]
      simp [severeCount, diagsOf, hr]
    · rw [if_neg hr]
      simp [severeCount, diagsOf, hr]

/-- Claim C5, amended, witness: a one-face mesh whose only collision
query raises — the diagnostic is recorded, the scan completes, and the
check passes (0 of 1 faces intersecting). -/
theorem C5_amended_witness :
    (detectLoop goodMesh.vertices collideBoom 0 goodMesh.faces).2.2 = none ∧
    detect_severe_self_intersections goodMesh (.ok ()) collideBoom =
      (if (severeCount goodMesh collideBoom : ℚ) / (goodMesh.faces.length : ℚ) >
          SEVERITY_THRESHOLD then false else true,
       diagsOf goodMesh collideBoom ++
         (if (severeCount goodMesh collideBoom : ℚ) / (goodMesh.faces.length : ℚ) >
             SEVERITY_THRESHOLD
           then [msgSevere (severeCount goodMesh collideBoom)] else [])) :=
  C5_amended goodMesh collideBoom (by decide) (by decide)

/-- Claim C4, code bug, evaluated at the failing input: a Path3D whose
to_mesh conversion returns a falsy value. load_mesh returns the original
path object (no InvalidType reason is ever recorded — the isinstance
check is bypassed by the early return), and validate() then raises an
AttributeError when the first check reads mesh.faces, instead of
reporting InvalidType. -/
theorem C4_bug :
    load_mesh (.ok (.path3d (.ok none))) =
      (.nonMesh "Path3D",
        ["Detected Path3D object.", "Failed to convert Path3D to mesh."]) ∧
    validate (.ok (.path3d (.ok none))) (.ok ()) collideNone =
      .error (msgNoFacesAttr "Path3D") := ⟨rfl, rfl⟩

/-- Claim C6, counterexample: a face whose three vertex positions
coincide still has shape (3, 3), so the detector probes it — here the
probe collides and the face is counted, producing the severity failure —
instead of skipping it with a diagnostic as the claim states. -/
theorem C6_counterexample :
    detect_severe_self_intersections coincidentMesh (.ok ()) collideAll =
      (false, [msgSevere 1]) ∧
    faceStep coincidentMesh.vertices collideAll 0 [0, 1, 2] =
      FaceOutcome.probed
        (collideAll 0 (perturbFace (faceVertices coincidentMesh.vertices [0, 1, 2]))) := by
  constructor
  · have hL : detectLoop [[1, 1, 1], [1, 1, 1], [1, 1, 1]] collideAll 0 [[0, 1, 2]] =
        (1, [], none) := rfl
    norm_num [detect_severe_self_intersections, coincidentMesh, hL, SEVERITY_THRESHOLD]
  · rfl

/-- Claim C6, amended: for every face whose indices are in range, the
detector skips the face (recording the skip diagnostic, with no collision
query and no abort of the scan) exactly when the vertex data does not
have shape (3, 3); a face with the correct shape is probed regardless of
whether its points are distinct. -/
theorem C6_amended (verts : List (List ℚ))
    (collide : Nat → List (List ℚ) → Except String Bool) (i : Nat) (f : List Nat)
    (hin : f.all (fun j => decide (j < verts.length)) = true) :
    (shapeOK (faceVertices verts f) = false →
      faceStep verts collide i f =
        FaceOutcome.skipped (msgSkippingFace i (shapeStr (faceVertices verts f)))) ∧
    (shapeOK (faceVertices verts f) = true →
      faceStep verts collide i f =
        FaceOutcome.probed (collide i (perturbFace (faceVertices verts f)))) := by
  unfold faceStep
  rw [if_pos hin]
  constructor
  · intro hs
    rw [if_neg (by simp [hs])]
  · intro hs
    rw [if_pos hs]

/-- Claim C6, amended, witness: a face of one 2-coordinate vertex has
shape (1, 2) and is skipped. -/
theorem C6_amended_witness :
    (shapeOK (faceVertices [[0, 0]] [0]) = false →
      faceStep [[0, 0]] collideNone 3 [0] =
        FaceOutcome.skipped (msgSkippingFace 3 (shapeStr (faceVertices [[0, 0]] [0])))) ∧
    (shapeOK (faceVertices [[0, 0]] [0]) = true →
      faceStep [[0, 0]] collideNone 3 [0] =
        FaceOutcome.probed (collideNone 3 (perturbFace (faceVertices [[0, 0]] [0])))) :=
  C6_amended [[0, 0]] collideNone 3 [0] (by decide)

/-- Claim C7, code bug, evaluated at the failing input: acquisition
succeeds, then the validator raises (Path3D whose conversion failed), the
exception escapes validate_and_convert_glb, and the asset's output
directory (with the downloaded file) survives even though the asset did
not reach Exported. -/
theorem C7_bug :
    processAsset true (validate (.ok (.path3d (.ok none))) (.ok ()) collideNone)
        (.ok ()) (.ok ()) =
      (TaskOutcome.crashed (msgNoFacesAttr "Path3D"), ⟨true, true⟩) ∧
    TaskOutcome.crashed (msgNoFacesAttr "Path3D") ≠ TaskOutcome.exported ∧
    (processAsset true (validate (.ok (.path3d (.ok none))) (.ok ()) collideNone)
        (.ok ()) (.ok ())).2.dirExists = true := by
  refine ⟨rfl, fun h => TaskOutcome.noConfusion h, rfl⟩

/-- Claim C8: a scene holding strictly more than one geometry makes
load_mesh record the multiple-objects reason (with the count) and return
None, and validate() returns failure with exactly that reason — no mesh
check contributes anything. -/
theorem C8_multiple_objects (geoms : List Geometry) (bvh : Except String Unit)
    (collide : Nat → List (List ℚ) → Except String Bool)
    (h : 1 < geoms.length) :
    load_mesh (.ok (.scene geoms)) = (.noMesh, [msgMultipleObjects geoms.length]) ∧
    validate (.ok (.scene geoms)) bvh collide =
      .ok (false, [msgMultipleObjects geoms.length]) := by
  have hl : load_mesh (.ok (.scene geoms)) =
      (.noMesh, [msgMultipleObjects geoms.length]) := by
    unfold load_mesh
    dsimp only
    rw [if_pos h]
  exact ⟨hl, by simp [validate, hl]⟩

/-- Claim C8, witness at a two-geometry scene. -/
theorem C8_witness :
    load_mesh (.ok (.scene [Geometry.nonTri "PointCloud", Geometry.nonTri "Trimesh"])) =
      (.noMesh, [msgMultipleObjects 2]) ∧
    validate (.ok (.scene [Geometry.nonTri "PointCloud", Geometry.nonTri "Trimesh"]))
        (.ok ()) collideNone =
      .ok (false, [msgMultipleObjects 2]) :=
  C8_multiple_objects [Geometry.nonTri "PointCloud", Geometry.nonTri "Trimesh"]
    (.ok ()) collideNone (by decide)

/-- Claim C9: check_face_count fails exactly when the face count strictly
exceeds MAX_FACES = 64000, the appended reason carries the actual count,
and a mesh with exactly 64000 faces passes with no reason appended. -/
theorem C9_face_count (m : Mesh) :
    ((check_face_count m).1 = false ↔ MAX_FACES < m.faces.length) ∧
    (MAX_FACES < m.faces.length →
      (check_face_count m).2 = [msgTooManyFaces m.faces.length]) ∧
    (m.faces.length = MAX_FACES → check_face_count m = (true, [])) := by
  unfold check_face_count
  refine ⟨?_, ?_, ?_⟩
  · split <;> simp_all
  · intro h
    rw [if_pos h]
  · intro h
    rw [if_neg (by omega)]

/-- Claim C9, witness at 64001 faces (fails, reason carries the count)
and at exactly 64000 faces (passes). -/
theorem C9_witness :
    (((check_face_count bigMesh).1 = false ↔ MAX_FACES < bigMesh.faces.length) ∧
      (MAX_FACES < bigMesh.faces.length →
        (check_face_count bigMesh).2 = [msgTooManyFaces bigMesh.faces.length]) ∧
      (bigMesh.faces.length = MAX_FACES → check_face_count bigMesh = (true, []))) ∧
    (((check_face_count boundaryMesh).1 = false ↔
        MAX_FACES < boundaryMesh.faces.length) ∧
      (MAX_FACES < boundaryMesh.faces.length →
        (check_face_count boundaryMesh).2 =
          [msgTooManyFaces boundaryMesh.faces.length]) ∧
      (boundaryMesh.faces.length = MAX_FACES →
        check_face_count boundaryMesh = (true, []))) :=
  ⟨C9_face_count bigMesh, C9_face_count boundaryMesh⟩

/-- Claim C10: a zero-face mesh reaches the ratio computation, which
divides by the zero face count; the ZeroDivisionError is caught by the
blanket handler, the check returns False with the blanket reason, and a
validate() run on such a mesh carries both the EmptyMesh reason and the
self-intersection error reason. -/
theorem C10_zero_faces (m : Mesh) (collide : Nat → List (List ℚ) → Except String Bool)
    (h : m.faces = []) :
    detect_severe_self_intersections m (.ok ()) collide =
      (false, [msgDetectError "division by zero"]) ∧
    ∀ p rs, validate (.ok (.trimeshObj m)) (.ok ()) collide = .ok (p, rs) →
      p = false ∧ "Mesh has no faces." ∈ rs ∧
        msgDetectError "division by zero" ∈ rs := by
  have hdet : detect_severe_self_intersections m (.ok ()) collide =
      (false, [msgDetectError "division by zero"]) := by
    unfold detect_severe_self_intersections
    rw [h]
    simp [detectLoop]
  refine ⟨hdet, fun p rs hv => ?_⟩
  simp only [validate, load_mesh] at hv
  rw [Except.ok.injEq, Prod.mk.injEq] at hv
  obtain ⟨hp, he⟩ := hv
  refine ⟨?_, ?_, ?_⟩
  · rw [← hp]
    simp [check_empty_mesh, h]
  · rw [← he]
    simp [check_empty_mesh, h]
  · rw [← he]
    simp [hdet]

/-- Claim C10, witness at the concrete zero-face mesh. -/
theorem C10_witness :
    (detect_severe_self_intersections emptyMesh (.ok ()) collideAll =
      (false, [msgDetectError "division by zero"])) ∧
    ∀ p rs, validate (.ok (.trimeshObj emptyMesh)) (.ok ()) collideAll = .ok (p, rs) →
      p = false ∧ "Mesh has no faces." ∈ rs ∧
        msgDetectError "division by zero" ∈ rs :=
  C10_zero_faces emptyMesh collideAll rfl
